import Mathlib

/-!
# GoRPC: a time server and its client over `net/rpc`

A shallow embedding of `server/server.go` and `client/client.go`.

* Go `int64` is the subtype of `Int` between `math.MinInt64` and `math.MaxInt64`.
* A Go `error` value is a record holding the text of its `Error()` method; the
  `nil` error is `none`.
* A pointer that may be `nil` is an `Option`.
* Everything a process takes from the outside world (the wall clock, the result
  of `net.Listen`, `rpc.DialHTTP`, `client.Call`, `http.Serve`) is an explicit
  input; everything it does to the outside world is recorded, in program
  order, in a trace of events, together with the exit status.
* `log.Fatal(v...)` writes `fmt.Sprint(v...)` to the logger and calls
  `os.Exit(1)`; a `main` that returns ends the process with status 0.
* The text of a log event is the message handed to the logger; the date and
  time the standard logger puts in front of each line are not modelled.
-/

set_option linter.unusedVariables false

namespace GoRPC

/-! ## Go base types -/

/-- Go `int64`: a signed 64-bit integer. -/
abbrev int64 : Type :=
  { n : Int // -9223372036854775808 ≤ n ∧ n ≤ 9223372036854775807 }

/-- The zero value of `int64`. -/
def int64.zero : int64 := ⟨0, by decide⟩

/-- Go `error`: a non-nil error value, carrying what its `Error()` method returns. -/
structure error where
  Error : String
deriving DecidableEq, Repr

deriving instance DecidableEq for Except

/-- Go `fmt.Sprint(s, err)` for a string operand followed by an error operand:
no space is added between operands when one of them is a string, and the
error is rendered by its `Error()` method. -/
def Sprint (s : String) (err : error) : String :=
  s ++ err.Error

/-- Go `fmt.Sprintf("%d", v)` for an `int64`: the decimal numeral of `v`, with a
leading minus sign when negative. Any other format is outside this model and
is returned as is. -/
def Sprintf (format : String) (v : int64) : String :=
  if format = "%d" then toString v.val else format

/-! ## server/server.go -/

namespace Server

/-- Go `type Args struct {}` of the server package. -/
structure Args where
deriving DecidableEq, Repr

/-- Go `type TimeServer int64`. -/
abbrev TimeServer : Type := int64

/-- Go
`func (t *TimeServer) GiveServerTime(args *Args, reply *int64) error`.
`t` and `args` are pointers (`none` is `nil`); `now` is what `time.Now().Unix()`
reads; `reply` is the content of the cell `reply` points to on entry (the
pointer itself is never nil: the caller always passes an allocated cell). The
result is the content of that cell on return and the returned error. -/
def GiveServerTime (t : Option TimeServer) (args : Option Args) (now : int64)
    (reply : int64) : int64 × Option error :=
  let reply := now        -- *reply = time.Now().Unix()
  (reply, none)           -- return nil

/-- A handler bound in the registry: from the argument pointer, the clock reading
and the reply cell to the reply cell on return and the error. -/
abbrev Handler : Type := Option Args → int64 → int64 → int64 × Option error

/-- A procedure: a name bound to a handler. -/
structure Procedure where
  name : String
  handler : Handler

/-- The procedure registry. -/
abbrev Registry : Type := List Procedure

/-- The names bound in a registry, in registration order. -/
def Registry.names (reg : Registry) : List String :=
  reg.map (fun p => p.name)

/-- Failure of `Register`. -/
inductive RegisterError where
  | DuplicateRegistration
deriving DecidableEq, Repr

/-- Failure of `Dispatch`. -/
inductive DispatchError where
  | UnknownProcedure
  | HandlerError (err : error)
deriving DecidableEq, Repr

/-- Modelled from the spec: the registry lookup of package `net/rpc`, which is
not part of the repository sources. It finds the handler bound to a name. -/
def lookup (reg : Registry) (name : String) : Option Procedure :=
  reg.find? (fun p => p.name == name)

/-- Modelled from the spec: `Register(name, handler)` of package `net/rpc`, which
is not part of the repository sources. It binds a procedure name to a handler and
fails with `DuplicateRegistration` if the name is already bound, leaving the
registry as it was. -/
def Register (reg : Registry) (name : String) (handler : Handler) :
    Except RegisterError Registry :=
  match lookup reg name with
  | some _ => .error .DuplicateRegistration
  | none => .ok (reg ++ [⟨name, handler⟩])

/-- Modelled from the spec: `Dispatch(name, argsPayload)` of package `net/rpc`,
which is not part of the repository sources. It looks up the handler, fails with
`UnknownProcedure` if no handler is bound, otherwise invokes the handler on the
decoded arguments and a fresh reply cell, at clock reading `now`, and returns
its result or its error tagged `HandlerError`. -/
def Dispatch (reg : Registry) (name : String) (argsPayload : Args) (now : int64) :
    Except DispatchError int64 :=
  match lookup reg name with
  | none => .error .UnknownProcedure
  | some p =>
    match p.handler (some argsPayload) now int64.zero with
    | (result, none) => .ok result
    | (_, some err) => .error (.HandlerError err)

/-- The name of the receiver type, `type TimeServer int64`. -/
def typeName : String := "TimeServer"

/-- The name of the method, `func (t *TimeServer) GiveServerTime`. -/
def methodName : String := "GiveServerTime"

/-- Modelled from the spec: `rpc.Register(rcvr)` of package `net/rpc`, which is
not part of the repository sources, for a receiver of type `*TimeServer`. The one
exported method of the receiver is bound under the receiver type name, a dot and
the method name. As in `main`, the error returned by the registration is
discarded, so a failed registration leaves the registry as it was. -/
def rpcRegister (reg : Registry) (rcvr : Option TimeServer) : Registry :=
  match Register reg (typeName ++ "." ++ methodName) (GiveServerTime rcvr) with
  | .ok reg' => reg'
  | .error _ => reg

/-- What the server process does, in program order. -/
inductive Event where
  /-- Go `rpc.Register(timeserver)`, binding `name` -/
  | register (name : String)
  /-- Go `rpc.HandleHTTP()` -/
  | handleHTTP
  /-- Go `net.Listen(network, address)` -/
  | listen (network address : String)
  /-- Go `log.Fatal(msg)`: the diagnostic is written and the process exits with status 1 -/
  | fatal (msg : String)
  /-- Go `http.Serve(listener, nil)` begins -/
  | serve
  /-- one request accepted by `http.Serve` and dispatched; `result` is the reply sent -/
  | dispatch (name : String) (result : Except DispatchError int64)
deriving DecidableEq

/-- Whether an event is a registration. -/
def Event.isRegister : Event → Bool
  | .register _ => true
  | _ => false

/-- Whether an event belongs to `http.Serve`: its start or a request it serves. -/
def Event.isServe : Event → Bool
  | .serve => true
  | .dispatch _ _ => true
  | _ => false

/-- Whether an event is a `log.Fatal`. -/
def Event.isFatal : Event → Bool
  | .fatal _ => true
  | _ => false

/-- One step of a run: the event and the registry as it is after the event. -/
structure Step where
  event : Event
  registry : Registry

/-- One request arriving at the server, with the clock reading at which its
handler runs. -/
structure Request where
  ServiceMethod : String
  args : Args
  now : int64

/-- The outside world of one run of the server. -/
structure Env where
  /-- the error returned by `net.Listen(network, address)`, `none` for nil -/
  Listen : String → String → Option error
  /-- the requests accepted while `http.Serve` runs -/
  requests : List Request
  /-- the error with which `http.Serve` returns; `none` when it never returns
  and the process is killed from outside -/
  Serve : Option error

/-- The outcome of a run of the server: its steps and its exit status (`none` when
the process was killed from outside while `http.Serve` was blocking). -/
structure Run where
  steps : List Step
  exit : Option Nat

/-- The events of a run. -/
def Run.trace (r : Run) : List Event :=
  r.steps.map (fun s => s.event)

/-- Go `new(TimeServer)`: a pointer to a zero-valued `TimeServer`. -/
def newTimeServer : Option TimeServer := some int64.zero

/-- The registry of a fresh process: `rpc.DefaultServer` has no service. -/
def emptyRegistry : Registry := []

/-- The service loop inside `http.Serve`: each accepted request is dispatched
against the registry and answered. -/
def serveRequests (registry : Registry) (requests : List Request) : List Step :=
  requests.map (fun req =>
    ⟨.dispatch req.ServiceMethod (Dispatch registry req.ServiceMethod req.args req.now),
     registry⟩)

/-- Go `func main()` of the server. -/
def main (env : Env) : Run :=
  let timeserver := newTimeServer                            -- timeserver := new(TimeServer)
  let registry := rpcRegister emptyRegistry timeserver       -- rpc.Register(timeserver)
  let s0 : List Step :=
    [⟨.register (typeName ++ "." ++ methodName), registry⟩,
     ⟨.handleHTTP, registry⟩,                                -- rpc.HandleHTTP()
     ⟨.listen "tcp" "0.0.0.0:1234", registry⟩]               -- listener, err := net.Listen(...)
  match env.Listen "tcp" "0.0.0.0:1234" with
  | some err =>                                              -- if err != nil
    ⟨s0 ++ [⟨.fatal (Sprint "Listener error: " err), registry⟩], some 1⟩
  | none =>
    -- http.Serve(listener, nil); its returned error is discarded and main returns
    ⟨s0 ++ [⟨.serve, registry⟩] ++ serveRequests registry env.requests,
     match env.Serve with
     | some _ => some 0
     | none => none⟩

end Server

/-! ## client/client.go -/

namespace Client

/-- Go `type Args struct {}` of the client package. -/
structure Args where
deriving DecidableEq, Repr

/-- What the client process does, in program order. -/
inductive Event where
  /-- Go `rpc.DialHTTP(network, address)` -/
  | dialHTTP (network address : String)
  /-- Go `client.Call(serviceMethod, args, &reply)` -/
  | call (serviceMethod : String) (args : Args)
  /-- Go `log.Fatal(msg)`: the diagnostic is written and the process exits with status 1 -/
  | fatal (msg : String)
  /-- Go `log.Printf(format, v)` -/
  | printf (format : String) (v : int64)
deriving DecidableEq

/-- The text an event hands to the logger, if any. -/
def Event.output : Event → Option String
  | .fatal msg => some msg
  | .printf format v => some (Sprintf format v)
  | _ => none

/-- The outside world of one run of the client. -/
structure Env where
  /-- the error returned by `rpc.DialHTTP(network, address)`, `none` for nil -/
  DialHTTP : String → String → Option error
  /-- Go `client.Call(serviceMethod, args, &reply)` on the client returned by
  `DialHTTP`: from the content of `reply` on entry to its content on return and
  the returned error -/
  Call : String → Args → int64 → int64 × Option error

/-- The outcome of a run of the client. -/
structure Run where
  trace : List Event
  exit : Nat

/-- Go `func main()` of the client. -/
def main (env : Env) : Run :=
  let reply : int64 := int64.zero                            -- var reply int64
  let args : Args := {}                                      -- args := Args{}
  match env.DialHTTP "tcp" "0.0.0.0:1234" with               -- client, err := rpc.DialHTTP(...)
  | some err =>                                              -- if err != nil
    ⟨[.dialHTTP "tcp" "0.0.0.0:1234",
      .fatal (Sprint "Client connection error: " err)], 1⟩
  | none =>
    -- err = client.Call("TimeServer.GiveServerTime", args, &reply)
    match env.Call "TimeServer.GiveServerTime" args reply with
    | (_, some err) =>                                       -- if err != nil
      ⟨[.dialHTTP "tcp" "0.0.0.0:1234",
        .call "TimeServer.GiveServerTime" args,
        .fatal (Sprint "Client invocation error: " err)], 1⟩
    | (reply, none) =>
      ⟨[.dialHTTP "tcp" "0.0.0.0:1234",
        .call "TimeServer.GiveServerTime" args,
        .printf "%d" reply], 0⟩                              -- log.Printf("%d", reply)

/-- The calls issued in a trace, in order. -/
def calls : List Event → List (String × Args)
  | [] => []
  | .call m a :: es => (m, a) :: calls es
  | _ :: es => calls es

/-- The values printed in a trace, in order. -/
def printed : List Event → List int64
  | [] => []
  | .printf _ v :: es => v :: printed es
  | _ :: es => printed es

/-- The diagnostics of a trace: the messages of its `log.Fatal` events, in order. -/
def diagnostics : List Event → List String
  | [] => []
  | .fatal msg :: es => msg :: diagnostics es
  | _ :: es => diagnostics es

end Client

/-! ## The two processes joined by a transport -/

/-- The argument payload as the server decodes it: the empty structure of the
client package arrives as the empty structure of the server package. -/
def transportArgs (args : Client.Args) : Server.Args := {}

/-- The text of a dispatch failure as the client receives it. -/
def DispatchErrorText : Server.DispatchError → String
  | .UnknownProcedure => "rpc: can not find procedure"
  | .HandlerError err => err.Error

/-- The response as `client.Call` hands it to its caller: a result is stored in
the reply cell and the error is nil; a failure leaves the reply cell as it was
and is returned as the error. -/
def deliver (resp : Except Server.DispatchError int64) (reply : int64) :
    int64 × Option error :=
  match resp with
  | .ok result => (result, none)
  | .error e => (reply, some ⟨DispatchErrorText e⟩)

/-- The registry of the server once `main` has registered the time server. -/
def serverRegistry : Server.Registry :=
  Server.rpcRegister Server.emptyRegistry Server.newTimeServer

/-- A client world in which the server is up: the connection succeeds and each
call is dispatched by the server, whose clock reads `now`, over a transport
delivering request and reply unchanged. -/
def loopback (now : int64) : Client.Env where
  DialHTTP := fun _ _ => none
  Call := fun name args reply =>
    deliver (Server.Dispatch serverRegistry name (transportArgs args) now) reply

/-! ## The handler -/

/-- C1: for every receiver, every argument pointer (nil included), every clock
reading `now` and every prior content of the reply cell, `GiveServerTime` leaves
exactly `now` in the reply cell: the same 64-bit value, not truncated and not
offset. -/
theorem GiveServerTime_stores_clock (t : Option Server.TimeServer)
    (args : Option Server.Args) (now reply : int64) :
    (Server.GiveServerTime t args now reply).1 = now ∧
      (Server.GiveServerTime t args now reply).1.val = now.val := by
  simp [Server.GiveServerTime]

/-- C2: `GiveServerTime` never fails: for every receiver, every argument pointer,
every clock reading and every prior content of the reply cell, the error it
returns is nil. -/
theorem GiveServerTime_error_nil (t : Option Server.TimeServer)
    (args : Option Server.Args) (now reply : int64) :
    (Server.GiveServerTime t args now reply).2 = none := by
  simp [Server.GiveServerTime]

/-- C7: the handler is monotone in the clock: if the clock readings of two
invocations satisfy `t1 ≤ t2`, then so do the two replies, whatever the
receivers, arguments and prior reply cells. -/
theorem GiveServerTime_monotone (r1 r2 : Option Server.TimeServer)
    (a1 a2 : Option Server.Args) (c1 c2 t1 t2 : int64) (h : t1.val ≤ t2.val) :
    (Server.GiveServerTime r1 a1 t1 c1).1.val ≤ (Server.GiveServerTime r2 a2 t2 c2).1.val := by
  simpa [Server.GiveServerTime] using h

/-- C7 at a concrete input: clock readings 1700000000 and 1700000003. -/
theorem GiveServerTime_monotone_witness :
    (Server.GiveServerTime Server.newTimeServer (some {}) ⟨1700000000, by decide⟩
        int64.zero).1.val ≤
      (Server.GiveServerTime Server.newTimeServer (some {}) ⟨1700000003, by decide⟩
        int64.zero).1.val :=
  GiveServerTime_monotone _ _ _ _ _ _ ⟨1700000000, by decide⟩ ⟨1700000003, by decide⟩
    (by decide)

/-! ## The client -/

/-- C3: the client exits with status zero exactly when both `DialHTTP` and `Call`
succeed. When `DialHTTP` fails with `err` it exits with status 1, its one
diagnostic is `Client connection error: ` followed by the error, and nothing is
printed. When `DialHTTP` succeeds and `Call` fails with `err` it exits with
status 1, its one diagnostic is `Client invocation error: ` followed by the
error, and nothing is printed. -/
theorem client_exit_status (env : Client.Env) :
    ((Client.main env).exit = 0 ↔
        env.DialHTTP "tcp" "0.0.0.0:1234" = none ∧
        (env.Call "TimeServer.GiveServerTime" {} int64.zero).2 = none) ∧
    (∀ err, env.DialHTTP "tcp" "0.0.0.0:1234" = some err →
        (Client.main env).exit ≠ 0 ∧
        Client.diagnostics (Client.main env).trace =
          ["Client connection error: " ++ err.Error] ∧
        Client.printed (Client.main env).trace = []) ∧
    (∀ err, env.DialHTTP "tcp" "0.0.0.0:1234" = none →
        (env.Call "TimeServer.GiveServerTime" {} int64.zero).2 = some err →
        (Client.main env).exit ≠ 0 ∧
        Client.diagnostics (Client.main env).trace =
          ["Client invocation error: " ++ err.Error] ∧
        Client.printed (Client.main env).trace = []) := by
  rcases hd : env.DialHTTP "tcp" "0.0.0.0:1234" with _ | e
  · rcases hc : env.Call "TimeServer.GiveServerTime" {} int64.zero with ⟨r, _ | e⟩
    · simp [Client.main, hd, hc, Client.diagnostics, Client.printed]
    · simp [Client.main, hd, hc, Client.diagnostics, Client.printed, Sprint]
  · simp [Client.main, hd, Client.diagnostics, Client.printed, Sprint]

/-- C3 at concrete inputs: a refused connection, and a call answered with an
error. -/
theorem client_exit_status_witness :
    (Client.main ⟨fun _ _ => some ⟨"connection refused"⟩,
        fun _ _ r => (r, none)⟩).exit ≠ 0 ∧
    Client.diagnostics (Client.main ⟨fun _ _ => none,
        fun _ _ r => (r, some ⟨"unexpected EOF"⟩)⟩).trace =
      ["Client invocation error: " ++ "unexpected EOF"] :=
  ⟨((client_exit_status ⟨fun _ _ => some ⟨"connection refused"⟩,
        fun _ _ r => (r, none)⟩).2.1 ⟨"connection refused"⟩ rfl).1,
   ((client_exit_status ⟨fun _ _ => none,
        fun _ _ r => (r, some ⟨"unexpected EOF"⟩)⟩).2.2 ⟨"unexpected EOF"⟩ rfl rfl).2.1⟩

/-- C4: in every run the client issues at most one `Call`. When the connection
succeeds it issues exactly one, for `TimeServer.GiveServerTime` with the empty
`Args` value; when the connection fails it issues none. -/
theorem client_calls (env : Client.Env) :
    (Client.calls (Client.main env).trace).length ≤ 1 ∧
    (env.DialHTTP "tcp" "0.0.0.0:1234" = none →
        Client.calls (Client.main env).trace = [("TimeServer.GiveServerTime", {})]) ∧
    (∀ err, env.DialHTTP "tcp" "0.0.0.0:1234" = some err →
        Client.calls (Client.main env).trace = []) := by
  rcases hd : env.DialHTTP "tcp" "0.0.0.0:1234" with _ | e
  · rcases hc : env.Call "TimeServer.GiveServerTime" {} int64.zero with ⟨r, _ | e⟩ <;>
      simp [Client.main, hd, hc, Client.calls]
  · simp [Client.main, hd, Client.calls]

/-- C4 at concrete inputs: a run against the loopback server, and a run whose
connection is refused. -/
theorem client_calls_witness :
    Client.calls (Client.main (loopback int64.zero)).trace =
      [("TimeServer.GiveServerTime", {})] ∧
    Client.calls (Client.main ⟨fun _ _ => some ⟨"connection refused"⟩,
        fun _ _ r => (r, none)⟩).trace = [] :=
  ⟨(client_calls (loopback int64.zero)).2.1 rfl,
   (client_calls ⟨fun _ _ => some ⟨"connection refused"⟩,
        fun _ _ r => (r, none)⟩).2.2 ⟨"connection refused"⟩ rfl⟩

/-- The calls of a run of the client are none or the one call of `main`. -/
theorem client_calls_aux (env : Client.Env) :
    Client.calls (Client.main env).trace = [] ∨
    Client.calls (Client.main env).trace = [("TimeServer.GiveServerTime", {})] := by
  rcases hd : env.DialHTTP "tcp" "0.0.0.0:1234" with _ | e
  · rcases hc : env.Call "TimeServer.GiveServerTime" {} int64.zero with ⟨r, _ | e⟩ <;>
      simp [Client.main, hd, hc, Client.calls]
  · simp [Client.main, hd, Client.calls]

/-! ## The server -/

/-- C5, the code at the failing input: the listener is bound, no request arrives
and `http.Serve` returns a fatal accept error. The server process ends with
status 0 and its trace holds no diagnostic. -/
theorem server_serve_error_exits_zero :
    (Server.main ⟨fun _ _ => none, [],
        some ⟨"accept tcp 0.0.0.0:1234: use of closed network connection"⟩⟩).exit = some 0 ∧
    (Server.main ⟨fun _ _ => none, [],
        some ⟨"accept tcp 0.0.0.0:1234: use of closed network connection"⟩⟩).trace.filter
      Server.Event.isFatal = [] := by
  simp [Server.main, Server.Run.trace, Server.serveRequests, Server.Event.isFatal]

/-- C6: when binding the listener fails with `err`, the server writes the
diagnostic `Listener error: ` followed by the error, exits with status 1, and
its trace holds neither the start of `http.Serve` nor any dispatched request:
it is the registration, `HandleHTTP`, the failed `Listen` and the `log.Fatal`. -/
theorem server_bind_error (env : Server.Env) (err : error)
    (h : env.Listen "tcp" "0.0.0.0:1234" = some err) :
    (Server.main env).exit = some 1 ∧
    (Server.main env).trace =
      [.register "TimeServer.GiveServerTime", .handleHTTP,
       .listen "tcp" "0.0.0.0:1234", .fatal ("Listener error: " ++ err.Error)] ∧
    (∃ rest, Server.Event.fatal ("Listener error: " ++ rest) ∈ (Server.main env).trace) ∧
    (Server.main env).trace.filter Server.Event.isServe = [] := by
  refine ⟨?_, ?_, ⟨err.Error, ?_⟩, ?_⟩ <;>
    simp [Server.main, h, Server.Run.trace, Sprint, Server.Event.isServe,
      Server.typeName, Server.methodName]

/-- C6 at a concrete input: the address is already in use. -/
theorem server_bind_error_witness :
    (Server.main ⟨fun _ _ => some ⟨"listen tcp 0.0.0.0:1234: bind: address already in use"⟩,
        [⟨"TimeServer.GiveServerTime", {}, int64.zero⟩], none⟩).exit = some 1 :=
  (server_bind_error
    ⟨fun _ _ => some ⟨"listen tcp 0.0.0.0:1234: bind: address already in use"⟩,
      [⟨"TimeServer.GiveServerTime", {}, int64.zero⟩], none⟩
    ⟨"listen tcp 0.0.0.0:1234: bind: address already in use"⟩ rfl).1

/-- Serving requests leaves the registry as it is and registers nothing. -/
theorem serveRequests_frame (registry : Server.Registry) (requests : List Server.Request) :
    ∀ s ∈ Server.serveRequests registry requests,
      s.event.isRegister = false ∧ s.registry = registry := by
  intro s hs
  simp only [Server.serveRequests, List.mem_map] at hs
  obtain ⟨req, _, rfl⟩ := hs
  simp [Server.Event.isRegister]

/-- The registry after the registration in `main` binds exactly one name. -/
theorem serverRegistry_names :
    serverRegistry.names = ["TimeServer.GiveServerTime"] := by
  simp [serverRegistry, Server.rpcRegister, Server.Register, Server.lookup,
    Server.emptyRegistry, Server.Registry.names, Server.typeName, Server.methodName]

/-- C9: in every run of the server the registry is written exactly once. The
first step of the run is the registration of the time server, which takes the
registry from empty to the one binding `TimeServer.GiveServerTime`; every later
step, among them the binding of the listener, the start of `http.Serve` and
every request dispatched to the handler, is no registration and leaves the
registry as the first step left it. -/
theorem registry_written_once (env : Server.Env) :
    ∃ rest : List Server.Step,
      (Server.main env).steps =
        ⟨.register "TimeServer.GiveServerTime", serverRegistry⟩ :: rest ∧
      Server.emptyRegistry.names = [] ∧
      serverRegistry.names = ["TimeServer.GiveServerTime"] ∧
      (∀ s ∈ rest, s.event.isRegister = false ∧ s.registry = serverRegistry) ∧
      Server.Event.listen "tcp" "0.0.0.0:1234" ∈ rest.map (fun s => s.event) ∧
      (∀ s ∈ (Server.main env).steps, s.event.isServe = true → s ∈ rest) ∧
      ((Server.main env).trace.filter Server.Event.isRegister).length = 1 := by
  have hframe := serveRequests_frame serverRegistry env.requests
  have hname : Server.typeName ++ "." ++ Server.methodName = "TimeServer.GiveServerTime" := by
    decide
  rcases hl : env.Listen "tcp" "0.0.0.0:1234" with _ | e
  · refine ⟨[⟨.handleHTTP, serverRegistry⟩, ⟨.listen "tcp" "0.0.0.0:1234", serverRegistry⟩,
      ⟨.serve, serverRegistry⟩] ++ Server.serveRequests serverRegistry env.requests,
      ?_, rfl, serverRegistry_names, ?_, ?_, ?_, ?_⟩
    · simp [Server.main, hl, hname, serverRegistry]
    · intro s hs
      simp only [List.cons_append, List.nil_append, List.mem_cons] at hs
      rcases hs with rfl | rfl | rfl | hs
      · simp [Server.Event.isRegister]
      · simp [Server.Event.isRegister]
      · simp [Server.Event.isRegister]
      · exact hframe s hs
    · simp
    · intro s hs hserve
      simp only [Server.main, hl, hname, List.cons_append, List.nil_append, List.mem_cons,
        List.append_assoc] at hs
      rcases hs with rfl | hs
      · simp [Server.Event.isServe] at hserve
      · simpa [serverRegistry] using hs
    · have hfil : List.filter Server.Event.isRegister
          ((Server.serveRequests serverRegistry env.requests).map (fun s => s.event)) = [] := by
        rw [List.filter_eq_nil_iff]
        intro a ha
        simp only [List.mem_map] at ha
        obtain ⟨s, hs, rfl⟩ := ha
        simp [(hframe s hs).1]
      have hsteps : (Server.main env).steps =
          ⟨.register "TimeServer.GiveServerTime", serverRegistry⟩ ::
            ([⟨.handleHTTP, serverRegistry⟩, ⟨.listen "tcp" "0.0.0.0:1234", serverRegistry⟩,
              ⟨.serve, serverRegistry⟩] ++
              Server.serveRequests serverRegistry env.requests) := by
        simp [Server.main, hl, hname, serverRegistry]
      simp only [Server.Run.trace, hsteps, List.map_cons, List.map_append, List.filter_cons,
        List.filter_append, List.cons_append, List.nil_append, hfil]
      simp [Server.Event.isRegister]
  · refine ⟨[⟨.handleHTTP, serverRegistry⟩, ⟨.listen "tcp" "0.0.0.0:1234", serverRegistry⟩,
      ⟨.fatal (Sprint "Listener error: " e), serverRegistry⟩],
      ?_, rfl, serverRegistry_names, ?_, ?_, ?_, ?_⟩
    · simp [Server.main, hl, hname, serverRegistry]
    · intro s hs
      simp only [List.mem_cons, List.mem_singleton] at hs
      rcases hs with rfl | rfl | rfl | hs
      · simp [Server.Event.isRegister]
      · simp [Server.Event.isRegister]
      · simp [Server.Event.isRegister]
      · simp at hs
    · simp
    · intro s hs hserve
      simp only [Server.main, hl, hname, List.cons_append, List.nil_append, List.mem_cons] at hs
      rcases hs with rfl | hs
      · simp [Server.Event.isServe] at hserve
      · simpa [serverRegistry] using hs
    · simp [Server.main, hl, Server.Run.trace, Server.Event.isRegister, List.filter_cons]

/-- Whenever the listener is bound and `http.Serve` returns an error, the server
process ends with status 0 and without a diagnostic. -/
theorem server_serve_error_silent (env : Server.Env) (err : error)
    (hl : env.Listen "tcp" "0.0.0.0:1234" = none) (hs : env.Serve = some err) :
    (Server.main env).exit = some 0 ∧
    (Server.main env).trace.filter Server.Event.isFatal = [] := by
  constructor
  · simp [Server.main, hl, hs]
  · simp only [Server.main, hl, Server.Run.trace, Server.serveRequests]
    rw [List.filter_eq_nil_iff]
    intro a ha
    simp only [List.map_append, List.map_cons, List.map_nil, List.map_map, List.mem_append,
      List.mem_cons, List.mem_map, List.not_mem_nil, or_false, Function.comp_apply] at ha
    rcases ha with ((rfl | rfl | rfl) | rfl) | ⟨req, _, rfl⟩ <;> simp [Server.Event.isFatal]

/-! ## Client and server together -/

/-- Dispatching `TimeServer.GiveServerTime` against the registry of the server
finds the handler and answers with the clock reading. -/
theorem Dispatch_GiveServerTime (args : Server.Args) (now : int64) :
    Server.Dispatch serverRegistry "TimeServer.GiveServerTime" args now = .ok now := by
  simp [Server.Dispatch, serverRegistry, Server.rpcRegister, Server.Register, Server.lookup,
    Server.emptyRegistry, Server.typeName, Server.methodName, Server.GiveServerTime]

/-- C8: end to end over a transport that delivers request and reply unchanged:
when the connection succeeds and the call of the client is answered by what
`GiveServerTime` leaves in its reply cell and returns at server clock reading
`t`, the client dials, issues its one call, prints `t` with the format `%d`,
that is the decimal numeral of `t`, and exits with status 0. Hence the printed
value is within 5 seconds of every harness clock reading that is within 5
seconds of `t`. -/
theorem end_to_end (env : Client.Env) (t : int64)
    (hdial : env.DialHTTP "tcp" "0.0.0.0:1234" = none)
    (hcall : ∀ args reply, env.Call "TimeServer.GiveServerTime" args reply =
      Server.GiveServerTime Server.newTimeServer (some (transportArgs args)) t int64.zero) :
    (Client.main env).exit = 0 ∧
    (Client.main env).trace =
      [.dialHTTP "tcp" "0.0.0.0:1234", .call "TimeServer.GiveServerTime" {},
       .printf "%d" t] ∧
    (Client.main env).trace.filterMap Client.Event.output = [toString t.val] ∧
    Client.printed (Client.main env).trace = [t] ∧
    ∀ harness : Int, |t.val - harness| ≤ 5 →
      ∀ v ∈ Client.printed (Client.main env).trace, |v.val - harness| ≤ 5 := by
  have hc : env.Call "TimeServer.GiveServerTime" {} int64.zero = (t, none) := by
    rw [hcall]
    rfl
  have htrace : (Client.main env).trace =
      [.dialHTTP "tcp" "0.0.0.0:1234", .call "TimeServer.GiveServerTime" {},
       .printf "%d" t] := by
    simp [Client.main, hdial, hc]
  refine ⟨by simp [Client.main, hdial, hc], htrace, ?_, ?_, ?_⟩
  · simp [htrace, Client.Event.output, Sprintf]
  · simp [htrace, Client.printed]
  · intro harness hh v hv
    simp only [htrace, Client.printed, List.mem_singleton] at hv
    subst hv
    exact hh

/-- C8 at a concrete input: the loopback server at clock reading 1700000000 and a
harness clock reading 1700000003. -/
theorem end_to_end_witness :
    (Client.main (loopback ⟨1700000000, by decide⟩)).exit = 0 ∧
    (Client.main (loopback ⟨1700000000, by decide⟩)).trace.filterMap Client.Event.output =
      ["1700000000"] ∧
    ∀ v ∈ Client.printed (Client.main (loopback ⟨1700000000, by decide⟩)).trace,
      |v.val - 1700000003| ≤ 5 :=
  have h := end_to_end (loopback ⟨1700000000, by decide⟩) ⟨1700000000, by decide⟩ rfl
    (fun _ _ => rfl)
  ⟨h.1, h.2.2.1, h.2.2.2.2 1700000003 (by decide)⟩

/-- C10: client and server agree on the rendezvous. The client dials `tcp` at
`0.0.0.0:1234` and the server listens on `tcp` at `0.0.0.0:1234`; every address
the client dials is one the server listens on. The name the client calls is the
receiver type name, a dot and the method name, which is the name the server
registers; looking it up in the registry of the server finds the handler
`GiveServerTime`, and dispatching the request of the client is answered with a
result, not with `UnknownProcedure`. -/
theorem rendezvous (cenv : Client.Env) (senv : Server.Env) :
    Client.Event.dialHTTP "tcp" "0.0.0.0:1234" ∈ (Client.main cenv).trace ∧
    Server.Event.listen "tcp" "0.0.0.0:1234" ∈ (Server.main senv).trace ∧
    (∀ network address, Client.Event.dialHTTP network address ∈ (Client.main cenv).trace →
      Server.Event.listen network address ∈ (Server.main senv).trace) ∧
    (∀ name args, (name, args) ∈ Client.calls (Client.main cenv).trace →
      name = "TimeServer.GiveServerTime" ∧
      name = Server.typeName ++ "." ++ Server.methodName ∧
      Server.Event.register name ∈ (Server.main senv).trace ∧
      name ∈ serverRegistry.names ∧
      (Server.lookup serverRegistry name).map (fun p => p.handler) =
        some (Server.GiveServerTime Server.newTimeServer) ∧
      ∀ now, Server.Dispatch serverRegistry name (transportArgs args) now = .ok now ∧
        Server.Dispatch serverRegistry name (transportArgs args) now ≠
          .error .UnknownProcedure) := by
  have hname : Server.typeName ++ "." ++ Server.methodName = "TimeServer.GiveServerTime" := by
    decide
  have hlisten : Server.Event.listen "tcp" "0.0.0.0:1234" ∈ (Server.main senv).trace := by
    rcases hl : senv.Listen "tcp" "0.0.0.0:1234" with _ | e <;>
      simp [Server.main, hl, Server.Run.trace]
  have hreg : Server.Event.register "TimeServer.GiveServerTime" ∈ (Server.main senv).trace := by
    rcases hl : senv.Listen "tcp" "0.0.0.0:1234" with _ | e <;>
      simp [Server.main, hl, Server.Run.trace, hname]
  have hlook : (Server.lookup serverRegistry "TimeServer.GiveServerTime").map
      (fun p => p.handler) = some (Server.GiveServerTime Server.newTimeServer) := by
    simp [serverRegistry, Server.rpcRegister, Server.Register, Server.lookup,
      Server.emptyRegistry, Server.typeName, Server.methodName]
  have hcalls : ∀ name args, (name, args) ∈ Client.calls (Client.main cenv).trace →
      name = "TimeServer.GiveServerTime" := by
    intro name args h
    have h1 := (client_calls_aux cenv)
    rcases h1 with h1 | h1 <;> rw [h1] at h <;> simp at h
    exact h
  refine ⟨?_, hlisten, ?_, ?_⟩
  · rcases hd : cenv.DialHTTP "tcp" "0.0.0.0:1234" with _ | e
    · rcases hc : cenv.Call "TimeServer.GiveServerTime" {} int64.zero with ⟨r, _ | e⟩ <;>
        simp [Client.main, hd, hc]
    · simp [Client.main, hd]
  · intro network address h
    have : network = "tcp" ∧ address = "0.0.0.0:1234" := by
      rcases hd : cenv.DialHTTP "tcp" "0.0.0.0:1234" with _ | e
      · rcases hc : cenv.Call "TimeServer.GiveServerTime" {} int64.zero with ⟨r, _ | e⟩ <;>
          simpa [Client.main, hd, hc] using h
      · simpa [Client.main, hd] using h
    rw [this.1, this.2]
    exact hlisten
  · intro name args h
    have hn := hcalls name args h
    subst hn
    refine ⟨rfl, hname.symm, hreg, ?_, hlook, ?_⟩
    · rw [serverRegistry_names]; simp
    · intro now
      rw [Dispatch_GiveServerTime]
      simp

end GoRPC
